import Mathlib

/-!
Shallow embedding of the podcast-subscription backend in `src/pods/src/main.rs`:
the in-memory store (`InMemoryStore` and its `DB` implementation), the feed
ingestion path (`parse_rss` plus the get-or-create slice of
`subscribe_to_podcast`), and the session handlers (`login`, `user_status`,
`subscribe_to_podcast`).  External collaborators (the HTTP GET performed by
`reqwest`, the XML text-to-tree parse of `roxmltree`, the `Uri::from_str`
validation, and the `uuid` crate's id generator) are modelled as oracle
parameters or as a deterministic fresh-id supply.
-/

namespace Podcasting

/-- Association-list model of `std::collections::HashMap`: lookup by key. -/
def lookupKey {α β : Type} [DecidableEq α] : List (α × β) → α → Option β
  | [], _ => none
  | (k, v) :: rest, a => if k = a then some v else lookupKey rest a

/-- Association-list model of `HashMap::insert`: replace the binding when the
key is present, append a new binding otherwise. -/
def insertKey {α β : Type} [DecidableEq α] : List (α × β) → α → β → List (α × β)
  | [], a, b => [(a, b)]
  | (k, v) :: rest, a, b =>
    if k = a then (a, b) :: rest else (k, v) :: insertKey rest a b

/-- Source struct `User` (main.rs lines 186-191).  `Uuid` is modelled as `Nat`. -/
structure User where
  name : String
  id : Nat
  subscribed : List String
  deriving DecidableEq, Repr

/-- Source struct `PodcastChannel` (main.rs lines 193-199). -/
structure PodcastChannel where
  name : String
  description : String
  rss : String
  id : Nat
  deriving DecidableEq, Repr

/-- Source struct `CreateUser` (main.rs lines 206-209). -/
structure CreateUser where
  name : String
  deriving DecidableEq, Repr

/-- Source enum `Error` (main.rs lines 211-215): the only error variants the
program defines. -/
inductive Error where
  | NotFound
  | DbError
  deriving DecidableEq, Repr

/-- Source struct `InMemoryStore` (main.rs lines 234-238): `users` and
`podcasts` mirror the two HashMaps.  `nextId` models the `uuid` crate's
generator (`Uuid::new_v4`, a fresh 128-bit random identifier, spec section 3)
as a deterministic supply of fresh identifiers: each call consumes the counter
and increments it. -/
structure InMemoryStore where
  users : List (Nat × User)
  podcasts : List (String × PodcastChannel)
  nextId : Nat
  deriving DecidableEq, Repr

/-- `InMemoryStore::get_user` (main.rs lines 250-252). -/
def InMemoryStore.get_user (s : InMemoryStore) (id : Nat) : Except Error User :=
  match lookupKey s.users id with
  | some u => .ok u
  | none => .error .NotFound

/-- `InMemoryStore::create_user` (main.rs lines 254-263): draw a fresh id,
build a user with an empty subscription list, insert it, return a copy. -/
def InMemoryStore.create_user (s : InMemoryStore) (user : CreateUser) :
    Except Error User × InMemoryStore :=
  let uuid := s.nextId
  let u : User := { name := user.name, id := uuid, subscribed := [] }
  (.ok u, { s with users := insertKey s.users uuid u, nextId := s.nextId + 1 })

/-- `InMemoryStore::get_podcast` (main.rs lines 265-267). -/
def InMemoryStore.get_podcast (s : InMemoryStore) (rss : String) :
    Except Error PodcastChannel :=
  match lookupKey s.podcasts rss with
  | some p => .ok p
  | none => .error .NotFound

/-- `InMemoryStore::create_podcast` (main.rs lines 269-284): draw a fresh id,
build the record, insert it keyed by the feed URL (overwriting any previous
binding), return the record. -/
def InMemoryStore.create_podcast (s : InMemoryStore)
    (rss title description : String) : Except Error PodcastChannel × InMemoryStore :=
  let id := s.nextId
  let p : PodcastChannel :=
    { rss := rss, name := title, description := description, id := id }
  (.ok p, { s with podcasts := insertKey s.podcasts rss p, nextId := s.nextId + 1 })

/-- `InMemoryStore::subscribe` (main.rs lines 286-293): look up the podcast
(propagating the error), look up the user (NotFound if absent), push the
podcast's feed URL onto the user's list only when not already contained,
return the updated list. -/
def InMemoryStore.subscribe (s : InMemoryStore) (user : Nat) (rss : String) :
    Except Error (List String) × InMemoryStore :=
  match s.get_podcast rss with
  | .error e => (.error e, s)
  | .ok p =>
    match lookupKey s.users user with
    | none => (.error .NotFound, s)
    | some u =>
      let u' := if p.rss ∈ u.subscribed then u
        else { u with subscribed := u.subscribed ++ [p.rss] }
      (.ok u'.subscribed, { s with users := insertKey s.users user u' })

/-- XML node model for the roxmltree fragment the program inspects: element
nodes with a tag and children, and text nodes. -/
inductive Xml where
  | node (tag : String) (children : List Xml)
  | text (s : String)

/-- Model of roxmltree `tag_name().name()`: non-element nodes have the empty
tag name. -/
def Xml.tagName : Xml → String
  | .node t _ => t
  | .text _ => ""

/-- Children of a node (empty for text nodes). -/
def Xml.childList : Xml → List Xml
  | .node _ cs => cs
  | .text _ => []

/-- Model of the pattern `children().find(|n| n.tag_name().name() == tag)`
used in `parse_rss`. -/
def findChild (cs : List Xml) (tag : String) : Option Xml :=
  cs.find? (fun n => n.tagName == tag)

/-- Model of roxmltree `Node::text`: the text of the first child when that
child is a text node, `None` otherwise. -/
def Xml.textContent : Xml → Option String
  | .node _ (Xml.text s :: _) => some s
  | _ => none

/-- Model of `parse_rss` (main.rs lines 153-184).  The HTTP GET
(`reqwest::get(..).text()`) and the text-to-tree XML parse
(`roxmltree::Document::parse`) are external collaborators passed as oracles:
`fetch` returns the response body or `none` on transport failure, and `xmlOf`
returns the parsed document's root children or `none` on malformed XML.  Every
`.unwrap()` in the source panics on failure; a panic is modelled as the
result `none`. -/
def parse_rss (fetch : String → Option String)
    (xmlOf : String → Option (List Xml)) (rss_url : String) :
    Option (String × String) := do
  let resp ← fetch rss_url
  let doc ← xmlOf resp
  let rss ← findChild doc "rss"
  let channel ← findChild rss.childList "channel"
  let titleNode ← findChild channel.childList "title"
  let title ← titleNode.textContent
  let descNode ← findChild channel.childList "description"
  let description ← descNode.textContent
  some (title, description)

namespace StatusCode

/-- `StatusCode::OK`. -/
def OK : Nat := 200

/-- `StatusCode::CREATED`. -/
def CREATED : Nat := 201

/-- `StatusCode::BAD_REQUEST`. -/
def BAD_REQUEST : Nat := 400

/-- `StatusCode::NOT_FOUND`. -/
def NOT_FOUND : Nat := 404

/-- `StatusCode::NOT_EXTENDED`. -/
def NOT_EXTENDED : Nat := 510

end StatusCode

/-- Source struct `AppState` (main.rs lines 14-18): the single session slot
plus the store, shared under one lock.  The lock serialises handlers, so a
handler is modelled as a function from `AppState` to result and `AppState`. -/
structure AppState where
  current_user : Option Nat
  db : InMemoryStore
  deriving DecidableEq, Repr

/-- Source struct `UserStatus` (main.rs lines 85-89). -/
structure UserStatus where
  user : Option Nat
  logged_in : Bool
  deriving DecidableEq, Repr

/-- Model of the `login` handler (main.rs lines 71-83): on a known user id the
session becomes that user and 200 OK is returned; on any lookup error the
handler replies 510 NOT_EXTENDED and leaves the state untouched. -/
def login (st : AppState) (uid : Nat) : Nat × AppState :=
  match st.db.get_user uid with
  | .ok u => (StatusCode.OK, { st with current_user := some u.id })
  | .error _ => (StatusCode.NOT_EXTENDED, st)

/-- Model of the `user_status` handler (main.rs lines 91-102): report the
current session without touching the state. -/
def user_status (st : AppState) : UserStatus × AppState :=
  match st.current_user with
  | some u => ({ user := some u, logged_in := true }, st)
  | none => ({ user := none, logged_in := false }, st)

/-- Model of the `subscribe_to_podcast` handler (main.rs lines 104-151).
`uriOk` models the external `Uri::from_str` validation (spec section 4.2 calls
the input a syntactically valid URI string; the successful round trip through
`to_string` is modelled as the identity on the string).  The first component
is `none` when the handler panics inside `parse_rss` (an unwrap on fetch or
parse failure), otherwise `some (status, body)` where the body mirrors the
`Json(Option<Vec<String>>)` reply. -/
def subscribe_to_podcast (fetch : String → Option String)
    (xmlOf : String → Option (List Xml)) (uriOk : String → Bool)
    (st : AppState) (rss : String) :
    Option (Nat × Option (List String)) × AppState :=
  if uriOk rss then
    let logged_in := st.current_user
    match st.db.get_podcast rss with
    | .ok p =>
      match logged_in with
      | some u =>
        match st.db.subscribe u p.rss with
        | (.ok l, db') => (some (StatusCode.CREATED, some l), { st with db := db' })
        | (.error _, db') => (some (StatusCode.BAD_REQUEST, none), { st with db := db' })
      | none => (some (StatusCode.NOT_FOUND, none), st)
    | .error .NotFound =>
      match parse_rss fetch xmlOf rss with
      | none => (none, st)
      | some (title, description) =>
        match st.db.create_podcast rss title description with
        | (.ok p, db') =>
          match logged_in with
          | some u =>
            match db'.subscribe u p.rss with
            | (.ok l, db2) => (some (StatusCode.CREATED, some l), { st with db := db2 })
            | (.error _, db2) => (some (StatusCode.BAD_REQUEST, none), { st with db := db2 })
          | none => (some (StatusCode.NOT_FOUND, none), { st with db := db' })
        | (.error _, db') => (some (StatusCode.BAD_REQUEST, none), { st with db := db' })
    | .error .DbError => (some (StatusCode.BAD_REQUEST, none), st)
  else (some (StatusCode.BAD_REQUEST, none), st)

/-- The feed-resolution slice of `subscribe_to_podcast` (main.rs line 114 and
lines 126-143; spec section 4.2): query the store for the URL, and on a miss
fetch and parse the feed and create the podcast record.  Returns the resolved
record (`none` on a panic inside `parse_rss`, or on a non-NotFound lookup
error), the resulting store, and the number of network fetches performed (the
fetch is attempted, and counted, even when it fails). -/
def resolve (fetch : String → Option String)
    (xmlOf : String → Option (List Xml)) (s : InMemoryStore) (url : String) :
    Option PodcastChannel × InMemoryStore × Nat :=
  match s.get_podcast url with
  | .ok p => (some p, s, 0)
  | .error .NotFound =>
    match parse_rss fetch xmlOf url with
    | none => (none, s, 1)
    | some (title, description) =>
      match s.create_podcast url title description with
      | (.ok p, s') => (some p, s', 1)
      | (.error _, s') => (none, s', 1)
  | .error .DbError => (none, s, 0)

/-- Every subscription list stored for a user is duplicate-free. -/
def subsNodup (s : InMemoryStore) : Prop :=
  ∀ k u, lookupKey s.users k = some u → u.subscribed.Nodup

/-- Every user id already in the store is below the fresh-id counter, so the
next drawn id has never been seen.  This holds for every store reachable from
`InMemoryStore::new` and models the uniqueness of freshly generated ids. -/
def idsFresh (s : InMemoryStore) : Prop :=
  ∀ k u, lookupKey s.users k = some u → k < s.nextId

/-- Every stored podcast record carries its own key as its `rss` field, as
`create_podcast` guarantees. -/
def podKeysConsistent (s : InMemoryStore) : Prop :=
  ∀ k p, lookupKey s.podcasts k = some p → p.rss = k

/-! Concrete fixtures used for witnesses and counterexamples. -/

/-- A feed URL used in concrete scenarios. -/
def feedUrl : String := "http://feeds.example/a"

/-- A registered user named Ada with id 1 and no subscriptions. -/
def adaUser : User := { name := "Ada", id := 1, subscribed := [] }

/-- The store produced by `InMemoryStore::new`. -/
def emptyStore : InMemoryStore := { users := [], podcasts := [], nextId := 0 }

/-- A store holding just the user Ada. -/
def baseStore : InMemoryStore := { users := [(1, adaUser)], podcasts := [], nextId := 2 }

/-- The podcast record `create_podcast` builds for `feedUrl` from the feed
below with the fresh id 0. -/
def podRec : PodcastChannel :=
  { rss := feedUrl, name := "Example Cast", description := "A show.", id := 0 }

/-- A store holding Ada and the podcast record for `feedUrl`. -/
def podStore : InMemoryStore :=
  { users := [(1, adaUser)], podcasts := [(feedUrl, podRec)], nextId := 2 }

/-- A well-formed RSS document: `rss > channel > title, description`. -/
def feedDoc : List Xml :=
  [Xml.node "rss" [Xml.node "channel"
    [Xml.node "title" [Xml.text "Example Cast"],
     Xml.node "description" [Xml.text "A show."]]]]

/-- Transport oracle that always succeeds. -/
def goodFetch : String → Option String := fun _ => some "body"

/-- Transport oracle that always fails (models a network outage). -/
def downFetch : String → Option String := fun _ => none

/-- XML oracle that always yields the well-formed feed document. -/
def goodXml : String → Option (List Xml) := fun _ => some feedDoc

/-- XML oracle that always fails (models malformed XML). -/
def badXml : String → Option (List Xml) := fun _ => none

/-- XML oracle yielding a document whose `rss` element has no `channel`
child. -/
def noChannelXml : String → Option (List Xml) := fun _ => some [Xml.node "rss" []]

/-- URI oracle accepting every string. -/
def allUriOk : String → Bool := fun _ => true

/-! Helper lemmas about the association-list operations. -/

theorem lookupKey_insertKey_self {α β : Type} [DecidableEq α]
    (l : List (α × β)) (k : α) (v : β) :
    lookupKey (insertKey l k v) k = some v := by
  induction l with
  | nil => simp [insertKey, lookupKey]
  | cons hd tl ih =>
    obtain ⟨a, b⟩ := hd
    by_cases hk : a = k
    · subst hk
      simp [insertKey, lookupKey]
    · simp [insertKey, lookupKey, hk, ih]

theorem lookupKey_insertKey_ne {α β : Type} [DecidableEq α]
    (l : List (α × β)) (k k' : α) (v : β) (h : k' ≠ k) :
    lookupKey (insertKey l k v) k' = lookupKey l k' := by
  induction l with
  | nil => simp [insertKey, lookupKey, Ne.symm h]
  | cons hd tl ih =>
    obtain ⟨a, b⟩ := hd
    by_cases hk : a = k
    · subst hk
      simp [insertKey, lookupKey, Ne.symm h]
    · by_cases hk' : a = k'
      · subst hk'
        simp [insertKey, lookupKey, hk]
      · simp [insertKey, lookupKey, hk, hk', ih]

theorem nodup_append_single {α : Type} (x : α) (l : List α)
    (hl : l.Nodup) (hx : x ∉ l) : (l ++ [x]).Nodup := by
  simp [List.nodup_append, hl, hx]

theorem lookupKey_singleton_eq {α β : Type} [DecidableEq α] {k a : α} {v w : β}
    (h : lookupKey [(k, v)] a = some w) : k = a ∧ w = v := by
  simp only [lookupKey] at h
  split at h
  · rename_i hk
    exact ⟨hk, (Option.some.inj h).symm⟩
  · exact Option.noConfusion h

theorem baseStore_subsNodup : subsNodup baseStore := by
  intro k u hu
  obtain ⟨-, hv⟩ := lookupKey_singleton_eq (by simpa [baseStore] using hu)
  subst hv
  simp [adaUser]

theorem podStore_subsNodup : subsNodup podStore := by
  intro k u hu
  obtain ⟨-, hv⟩ := lookupKey_singleton_eq (by simpa [podStore] using hu)
  subst hv
  simp [adaUser]

theorem baseStore_idsFresh : idsFresh baseStore := by
  intro k u hu
  obtain ⟨hk, -⟩ := lookupKey_singleton_eq (by simpa [baseStore] using hu)
  subst hk
  simp [baseStore]

theorem podStore_podKeys : podKeysConsistent podStore := by
  intro k p h
  obtain ⟨hk, hv⟩ := lookupKey_singleton_eq (by simpa [podStore] using h)
  subst hk
  subst hv
  rfl

/-- On a store whose subscription lists are all duplicate-free, one
`subscribe` call keeps every stored subscription list duplicate-free and only
ever returns a duplicate-free list. -/
theorem subscribe_keeps_subsNodup (s : InMemoryStore) (uid : Nat) (rss : String)
    (h : subsNodup s) :
    subsNodup (s.subscribe uid rss).snd ∧
    ∀ l, (s.subscribe uid rss).fst = .ok l → l.Nodup := by
  cases hg : s.get_podcast rss with
  | error e =>
    constructor
    · simpa [InMemoryStore.subscribe, hg] using h
    · intro l hl
      simp [InMemoryStore.subscribe, hg] at hl
  | ok p =>
    cases hu : lookupKey s.users uid with
    | none =>
      constructor
      · simpa [InMemoryStore.subscribe, hg, hu] using h
      · intro l hl
        simp [InMemoryStore.subscribe, hg, hu] at hl
    | some u =>
      have hnd : u.subscribed.Nodup := h uid u hu
      have hnd' : (if p.rss ∈ u.subscribed then u
          else { u with subscribed := u.subscribed ++ [p.rss] }).subscribed.Nodup := by
        by_cases hm : p.rss ∈ u.subscribed
        · simpa [hm] using hnd
        · simpa [hm] using nodup_append_single p.rss u.subscribed hnd hm
      have hsnd : (s.subscribe uid rss).snd =
          { s with users := insertKey s.users uid (if p.rss ∈ u.subscribed then u
            else { u with subscribed := u.subscribed ++ [p.rss] }) } := by
        simp [InMemoryStore.subscribe, hg, hu]
      have hfst : (s.subscribe uid rss).fst = .ok (if p.rss ∈ u.subscribed then u
          else { u with subscribed := u.subscribed ++ [p.rss] }).subscribed := by
        simp [InMemoryStore.subscribe, hg, hu]
      constructor
      · intro k w hw
        rw [hsnd] at hw
        rcases eq_or_ne k uid with rfl | hk
        · rw [lookupKey_insertKey_self] at hw
          cases hw
          exact hnd'
        · rw [lookupKey_insertKey_ne _ _ _ _ hk] at hw
          exact h k w hw
      · intro l hl
        rw [hfst] at hl
        injection hl with hl
        exact hl ▸ hnd'

/-- C1: The claim fails on the code.  With an anonymous session and a feed URL
not yet in the store, `subscribe_to_podcast` fetches the feed and persists a
new podcast record before performing the login check, and it replies 404
NOT_FOUND, the very status used for missing resources, rather than a distinct
authorization error. -/
theorem C1_anonymous_subscribe_creates_podcast :
    (subscribe_to_podcast goodFetch goodXml allUriOk
        { current_user := none, db := emptyStore } feedUrl).fst =
      some (StatusCode.NOT_FOUND, none) ∧
    lookupKey (subscribe_to_podcast goodFetch goodXml allUriOk
        { current_user := none, db := emptyStore } feedUrl).snd.db.podcasts feedUrl =
      some podRec ∧
    StatusCode.NOT_FOUND = 404 := by
  refine ⟨?_, ?_, rfl⟩ <;> rfl

/-- C2: The claim fails on the code.  On transport failure, and on malformed
or structurally incomplete XML, `parse_rss` panics through `.unwrap()` instead
of returning a fetch or parse error value — the program's `Error` type has
only the `NotFound` and `DbError` variants — although the subscribing user's
subscription set is indeed left unchanged because the panic unwinds before any
store mutation. -/
theorem C2_fetch_parse_failure_panics :
    (subscribe_to_podcast downFetch goodXml allUriOk
        { current_user := some 1, db := baseStore } feedUrl =
      (none, { current_user := some 1, db := baseStore })) ∧
    (subscribe_to_podcast goodFetch badXml allUriOk
        { current_user := some 1, db := baseStore } feedUrl =
      (none, { current_user := some 1, db := baseStore })) ∧
    (subscribe_to_podcast goodFetch noChannelXml allUriOk
        { current_user := some 1, db := baseStore } feedUrl =
      (none, { current_user := some 1, db := baseStore })) ∧
    lookupKey baseStore.users 1 = some adaUser ∧
    adaUser.subscribed = [] ∧
    (∀ e : Error, e = Error.NotFound ∨ e = Error.DbError) := by
  refine ⟨rfl, rfl, rfl, rfl, rfl, ?_⟩
  intro e
  cases e
  · exact Or.inl rfl
  · exact Or.inr rfl

/-- C8: Calling `create_podcast` twice with the same feed URL overwrites the
prior record: the second call wins, `get_podcast` then returns the second
record (carrying the second title and description), and the first record — a
distinct record, since the two draws of the id generator differ — is no
longer retrievable under that URL. -/
theorem C8_create_podcast_last_write_wins (s : InMemoryStore)
    (url t1 d1 t2 d2 : String) :
    ∃ p1 p2,
      (s.create_podcast url t1 d1).fst = .ok p1 ∧
      ((s.create_podcast url t1 d1).snd.create_podcast url t2 d2).fst = .ok p2 ∧
      ((s.create_podcast url t1 d1).snd.create_podcast url t2 d2).snd.get_podcast url
        = .ok p2 ∧
      p2.name = t2 ∧ p2.description = d2 ∧ p1 ≠ p2 := by
  refine ⟨_, _, rfl, rfl, ?_, rfl, rfl, ?_⟩
  · simp [InMemoryStore.get_podcast, InMemoryStore.create_podcast,
      lookupKey_insertKey_self]
  · intro hc
    have hid := congrArg PodcastChannel.id hc
    simp [InMemoryStore.create_podcast] at hid

/-- C9: `user_status` is a pure query: it returns the session and store
unchanged, reports the logged-in user id when one exists, and sets the
`logged_in` flag exactly when a user is logged in. -/
theorem C9_user_status_pure (st : AppState) :
    (user_status st).snd = st ∧
    (user_status st).fst.user = st.current_user ∧
    (user_status st).fst.logged_in = st.current_user.isSome := by
  cases h : st.current_user <;> simp [user_status, h]

/-- C10: Whenever the store's `subscribe` returns an error (unknown podcast
URL or unknown user id), the store is left completely unchanged: no user
record, subscription list, or podcast record is modified. -/
theorem C10_subscribe_error_no_mutation (s : InMemoryStore) (uid : Nat)
    (rss : String) (e : Error) (h : (s.subscribe uid rss).fst = .error e) :
    (s.subscribe uid rss).snd = s := by
  cases hg : s.get_podcast rss with
  | error e' => simp [InMemoryStore.subscribe, hg]
  | ok p =>
    cases hu : lookupKey s.users uid with
    | none => simp [InMemoryStore.subscribe, hg, hu]
    | some u =>
      exfalso
      simp [InMemoryStore.subscribe, hg, hu] at h

/-- C10 witness: on the empty store, subscribing user 1 to the feed URL
returns NotFound and leaves the store unchanged. -/
theorem C10_subscribe_error_no_mutation_witness :
    (emptyStore.subscribe 1 feedUrl).fst = Except.error Error.NotFound ∧
    (emptyStore.subscribe 1 feedUrl).snd = emptyStore :=
  ⟨rfl, C10_subscribe_error_no_mutation emptyStore 1 feedUrl Error.NotFound rfl⟩

/-- C3: If resolving a feed URL succeeds with record `p`, then resolving the
same URL again on the resulting store performs no network fetch, returns the
identical record `p`, and leaves the store unchanged (so no duplicate podcast
record is created); the two resolutions together perform at most one fetch. -/
theorem C3_resolve_idempotent (fetch : String → Option String)
    (xmlOf : String → Option (List Xml)) (s : InMemoryStore) (url : String)
    (p : PodcastChannel) (h : (resolve fetch xmlOf s url).fst = some p) :
    resolve fetch xmlOf (resolve fetch xmlOf s url).snd.fst url =
      (some p, (resolve fetch xmlOf s url).snd.fst, 0) ∧
    (resolve fetch xmlOf s url).snd.snd +
      (resolve fetch xmlOf (resolve fetch xmlOf s url).snd.fst url).snd.snd ≤ 1 := by
  cases hg : lookupKey s.podcasts url with
  | some q =>
    have hr : resolve fetch xmlOf s url = (some q, s, 0) := by
      simp [resolve, InMemoryStore.get_podcast, hg]
    rw [hr] at h ⊢
    injection h with h
    subst h
    simp [resolve, InMemoryStore.get_podcast, hg]
  | none =>
    cases hp : parse_rss fetch xmlOf url with
    | none =>
      have hr : resolve fetch xmlOf s url = (none, s, 1) := by
        simp [resolve, InMemoryStore.get_podcast, hg, hp]
      rw [hr] at h
      exact Option.noConfusion h
    | some td =>
      obtain ⟨t, d⟩ := td
      have hr : resolve fetch xmlOf s url =
          (some { rss := url, name := t, description := d, id := s.nextId },
           { s with
              podcasts :=
                insertKey s.podcasts url
                  { rss := url, name := t, description := d, id := s.nextId },
              nextId := s.nextId + 1 }, 1) := by
        simp [resolve, InMemoryStore.get_podcast, hg, hp, InMemoryStore.create_podcast]
      rw [hr] at h ⊢
      injection h with h
      subst h
      simp [resolve, InMemoryStore.get_podcast, lookupKey_insertKey_self]

/-- C3 witness: resolving the feed URL on the empty store creates `podRec`;
the second resolution returns the same record with zero fetches and at most
one fetch happens in total. -/
theorem C3_resolve_idempotent_witness :
    resolve goodFetch goodXml
        (resolve goodFetch goodXml emptyStore feedUrl).snd.fst feedUrl =
      (some podRec, (resolve goodFetch goodXml emptyStore feedUrl).snd.fst, 0) ∧
    (resolve goodFetch goodXml emptyStore feedUrl).snd.snd +
      (resolve goodFetch goodXml
        (resolve goodFetch goodXml emptyStore feedUrl).snd.fst feedUrl).snd.snd ≤ 1 :=
  C3_resolve_idempotent goodFetch goodXml emptyStore feedUrl podRec rfl

/-- C4: Starting from any store whose subscription lists are duplicate-free,
subscribing a user to a feed — and subscribing the same user to the same feed
twice in a row — keeps every user's subscription list duplicate-free, and the
list returned by the second subscription has no duplicate entries. -/
theorem C4_subscription_sets_nodup (s : InMemoryStore) (uid : Nat) (rss : String)
    (h : subsNodup s) :
    subsNodup (s.subscribe uid rss).snd ∧
    subsNodup ((s.subscribe uid rss).snd.subscribe uid rss).snd ∧
    ∀ l, ((s.subscribe uid rss).snd.subscribe uid rss).fst = .ok l → l.Nodup := by
  have h1 := subscribe_keeps_subsNodup s uid rss h
  have h2 := subscribe_keeps_subsNodup (s.subscribe uid rss).snd uid rss h1.1
  exact ⟨h1.1, h2.1, h2.2⟩

/-- C4 witness: subscribing Ada (id 1) twice to the stored feed keeps every
subscription list duplicate-free. -/
theorem C4_subscription_sets_nodup_witness :
    subsNodup (podStore.subscribe 1 feedUrl).snd ∧
    subsNodup ((podStore.subscribe 1 feedUrl).snd.subscribe 1 feedUrl).snd ∧
    ∀ l, ((podStore.subscribe 1 feedUrl).snd.subscribe 1 feedUrl).fst = .ok l →
      l.Nodup :=
  C4_subscription_sets_nodup podStore 1 feedUrl podStore_subsNodup

/-- C5: The claim fails on the code.  With the session authenticated as user 1
and no user 99 in the store, `login 99` signals failure (510 NOT_EXTENDED)
but the session stays authenticated as user 1 instead of returning to
anonymous. -/
theorem C5_login_failure_counterexample :
    lookupKey baseStore.users 99 = none ∧
    (login { current_user := some 1, db := baseStore } 99).fst =
      StatusCode.NOT_EXTENDED ∧
    (login { current_user := some 1, db := baseStore } 99).snd.current_user =
      some 1 ∧
    (login { current_user := some 1, db := baseStore } 99).snd.current_user ≠
      none := by
  refine ⟨rfl, rfl, rfl, ?_⟩
  intro hc
  exact Option.noConfusion hc

/-- C5 (amended): `login(id)` with a known user id authenticates that user and
returns OK; with an unknown id it signals failure (510 NOT_EXTENDED) and
leaves the whole state — the session included — unchanged. -/
theorem C5_login_spec (st : AppState) (uid : Nat) :
    (∀ u, lookupKey st.db.users uid = some u →
      login st uid = (StatusCode.OK, { st with current_user := some u.id })) ∧
    (lookupKey st.db.users uid = none →
      login st uid = (StatusCode.NOT_EXTENDED, st)) := by
  constructor
  · intro u hu
    simp [login, InMemoryStore.get_user, hu]
  · intro hu
    simp [login, InMemoryStore.get_user, hu]

/-- C5 witness: logging in as the stored user 1 succeeds and authenticates
the session; logging in as the unknown user 99 fails and leaves the state
unchanged. -/
theorem C5_login_spec_witness :
    login { current_user := none, db := baseStore } 1 =
      (StatusCode.OK, { current_user := some 1, db := baseStore }) ∧
    login { current_user := some 1, db := baseStore } 99 =
      (StatusCode.NOT_EXTENDED, { current_user := some 1, db := baseStore }) := by
  constructor
  · exact (C5_login_spec { current_user := none, db := baseStore } 1).1 adaUser rfl
  · exact (C5_login_spec { current_user := some 1, db := baseStore } 99).2 rfl

/-- C6: The store's `subscribe` returns NotFound (leaving the store unchanged)
when the feed URL has no podcast record or the user id has no user record;
otherwise it appends the feed URL to the user's subscription list only when
not already present, persists the updated user, and returns the updated
list.  The hypothesis, maintained by `create_podcast`, says every stored
podcast record carries its key as its `rss` field. -/
theorem C6_store_subscribe_spec (s : InMemoryStore) (uid : Nat) (rss : String)
    (hp : podKeysConsistent s) :
    (lookupKey s.podcasts rss = none →
      s.subscribe uid rss = (.error .NotFound, s)) ∧
    ((∃ p, lookupKey s.podcasts rss = some p) → lookupKey s.users uid = none →
      s.subscribe uid rss = (.error .NotFound, s)) ∧
    (∀ p u, lookupKey s.podcasts rss = some p → lookupKey s.users uid = some u →
      (s.subscribe uid rss).fst =
        .ok (if rss ∈ u.subscribed then u.subscribed else u.subscribed ++ [rss]) ∧
      lookupKey (s.subscribe uid rss).snd.users uid =
        some { u with subscribed := if rss ∈ u.subscribed then u.subscribed
          else u.subscribed ++ [rss] }) := by
  refine ⟨?_, ?_, ?_⟩
  · intro hpod
    simp [InMemoryStore.subscribe, InMemoryStore.get_podcast, hpod]
  · rintro ⟨p, hpod⟩ hu
    simp [InMemoryStore.subscribe, InMemoryStore.get_podcast, hpod, hu]
  · intro p u hpod hu
    have hrss : p.rss = rss := hp rss p hpod
    constructor
    · simp only [InMemoryStore.subscribe, InMemoryStore.get_podcast, hpod, hu, hrss]
      split <;> simp
    · simp only [InMemoryStore.subscribe, InMemoryStore.get_podcast, hpod, hu, hrss,
        lookupKey_insertKey_self]
      split <;> simp

/-- C6 witness: on the store holding Ada and the podcast record, subscribing
user 1 to the feed URL returns the singleton subscription list and persists
it on Ada's record. -/
theorem C6_store_subscribe_spec_witness :
    (podStore.subscribe 1 feedUrl).fst =
      .ok (if feedUrl ∈ adaUser.subscribed then adaUser.subscribed
        else adaUser.subscribed ++ [feedUrl]) ∧
    lookupKey (podStore.subscribe 1 feedUrl).snd.users 1 =
      some { adaUser with subscribed := if feedUrl ∈ adaUser.subscribed
        then adaUser.subscribed else adaUser.subscribed ++ [feedUrl] } :=
  (C6_store_subscribe_spec podStore 1 feedUrl podStore_podKeys).2.2 podRec adaUser rfl rfl

/-- C7: On any store whose stored user ids are all below the fresh-id counter
(true of every reachable store), `create_user` never fails: it returns a user
with the requested name, an empty subscription list, and an id not previously
seen in the store; it persists the record so that `get_user` on the returned
id yields an equal record; and the freshness invariant is preserved. -/
theorem C7_create_user_spec (s : InMemoryStore) (c : CreateUser)
    (h : idsFresh s) :
    ∃ u, (s.create_user c).fst = .ok u ∧
      u.name = c.name ∧ u.subscribed = [] ∧
      lookupKey s.users u.id = none ∧
      (s.create_user c).snd.get_user u.id = .ok u ∧
      idsFresh (s.create_user c).snd := by
  refine ⟨{ name := c.name, id := s.nextId, subscribed := [] }, rfl, rfl, rfl,
    ?_, ?_, ?_⟩
  · cases hl : lookupKey s.users s.nextId with
    | none => rfl
    | some w => exact absurd (h _ _ hl) (lt_irrefl _)
  · simp [InMemoryStore.create_user, InMemoryStore.get_user, lookupKey_insertKey_self]
  · intro k w hw
    simp only [InMemoryStore.create_user] at hw ⊢
    rcases eq_or_ne k s.nextId with rfl | hk
    · omega
    · rw [lookupKey_insertKey_ne _ _ _ _ hk] at hw
      have := h k w hw
      omega

/-- C7 witness: creating a user named Bob on the store holding Ada yields a
fresh user whose lookup succeeds, preserving freshness. -/
theorem C7_create_user_spec_witness :
    ∃ u, (baseStore.create_user ⟨"Bob"⟩).fst = .ok u ∧
      u.name = "Bob" ∧ u.subscribed = [] ∧
      lookupKey baseStore.users u.id = none ∧
      (baseStore.create_user ⟨"Bob"⟩).snd.get_user u.id = .ok u ∧
      idsFresh (baseStore.create_user ⟨"Bob"⟩).snd :=
  C7_create_user_spec baseStore ⟨"Bob"⟩ baseStore_idsFresh

end Podcasting
